import Mathlib

/-!
Verification of the de-duplicating object counter embedded in
src/Cashier_object_detection.py.

The script's algorithmic core keeps a tally of distinct priced objects seen
by a detector: for each detection whose label is in PRICE_LIST it scans the
list of previously seen objects for one with the same label whose box passes
a center-proximity test (is_same_object); if none passes, the tally for the
label is incremented and the box is recorded.

Modelling choices, faithful to the source:
* box coordinates are integers (the script converts detector output with
  int() before any use);
* box centers are rationals, since the script computes (x1 + x2) / 2 with
  Python division, which is exact on these values;
* the per-detection body of the capture loop in run_cashier is embedded as
  the pure step function `update` on an explicit state (counts,
  seen_objects), which the script holds in local mutable variables;
* the defaultdict counts is an association list in insertion order (Python
  dicts preserve insertion order, and defaultdict(int) appends a fresh key
  with value 0 before incrementing);
* the raw detector interface, where a coordinate may be missing or NaN so
  that int() raises ValueError, is embedded separately with Option: a none
  coordinate stands for a missing/NaN value and a none result stands for the
  raised exception.
-/

/-- The static PRICE_LIST dict of the script, in source order. -/
def PRICE_LIST : List (String × Int) :=
  [("apple", 30), ("banana", 10), ("orange", 25), ("bottle", 50),
   ("cup", 40), ("sandwich", 50), ("pizza", 80), ("donut", 35), ("cake", 100)]

/-- A bounding box (x1, y1, x2, y2) in pixel coordinates, after the
script's int() conversion. -/
structure Box where
  x1 : Int
  y1 : Int
  x2 : Int
  y2 : Int
  deriving DecidableEq, Repr

/-- is_same_object(box1, box2, threshold): compares the centers of the two
boxes and returns true iff both center coordinates differ by strictly less
than the threshold.  The script's default threshold is 50; call sites pass
it explicitly here. -/
def is_same_object (box1 box2 : Box) (threshold : ℚ) : Bool :=
  let cx1 : ℚ := ((box1.x1 : ℚ) + (box1.x2 : ℚ)) / 2
  let cy1 : ℚ := ((box1.y1 : ℚ) + (box1.y2 : ℚ)) / 2
  let cx2 : ℚ := ((box2.x1 : ℚ) + (box2.x2 : ℚ)) / 2
  let cy2 : ℚ := ((box2.y1 : ℚ) + (box2.y2 : ℚ)) / 2
  decide (|cx1 - cx2| < threshold) && decide (|cy1 - cy2| < threshold)

/-- The test `cls_name in PRICE_LIST` of the script. -/
def pricedB (cls_name : String) : Bool :=
  PRICE_LIST.any (fun p => p.1 == cls_name)

/-- The scan over seen_objects in run_cashier: the loop sets already_seen as
soon as some stored (prev_cls, prev_box) has prev_cls == cls_name and
is_same_object(prev_box, new_box); breaking early is equivalent to List.any. -/
def already_seen (seen_objects : List (String × Box)) (cls_name : String)
    (new_box : Box) : Bool :=
  seen_objects.any (fun p => p.1 == cls_name && is_same_object p.2 new_box 50)

/-- The session state of run_cashier: the counts defaultdict (as an
association list in insertion order) and the seen_objects list. -/
structure State where
  counts : List (String × Nat)
  seen_objects : List (String × Box)
  deriving DecidableEq, Repr

/-- Both counts and seen_objects start empty. -/
def initState : State := ⟨[], []⟩

/-- counts[cls_name] += 1 on a defaultdict(int) backed by an insertion
ordered association list: increment in place if the key exists, else append
the key at the end with count 1. -/
def bump : List (String × Nat) → String → List (String × Nat)
  | [], l => [(l, 1)]
  | (k, v) :: rest, l =>
    if k = l then (k, v + 1) :: rest else (k, v) :: bump rest l

/-- The tally read out of a counts list; a defaultdict(int) reads 0 for an
absent key. -/
def tallyOf (counts : List (String × Nat)) (l : String) : Nat :=
  (List.lookup l counts).getD 0

/-- tally[label] of a session state. -/
def tally (s : State) (l : String) : Nat :=
  tallyOf s.counts l

/-- The per-detection body of the capture loop in run_cashier (lines 46-60),
for a well-formed detection (label plus integer box): unpriced labels are
skipped; otherwise, if no same-label stored object passes the proximity
test, the count is incremented and the box appended to seen_objects. -/
def update (s : State) (cls_name : String) (new_box : Box) : State :=
  if pricedB cls_name then
    if already_seen s.seen_objects cls_name new_box then s
    else ⟨bump s.counts cls_name, s.seen_objects ++ [(cls_name, new_box)]⟩
  else s

/-- One frame: the detections of the frame are processed in order by the
inner loops of run_cashier. -/
def updateFrame (s : State) (frame : List (String × Box)) : State :=
  frame.foldl (fun t d => update t d.1 d.2) s

/-- A whole session tail: successive frames starting from a given state. -/
def applyFrames (s : State) (frames : List (List (String × Box))) : State :=
  frames.foldl updateFrame s

/-- A whole session from the empty starting state. -/
def runFrames (frames : List (List (String × Box))) : State :=
  applyFrames initState frames

/-- A raw detector box before the script's int() conversion: a coordinate
that is missing or NaN (so that int() would raise) is modelled as none. -/
structure RawBox where
  x1 : Option Int
  y1 : Option Int
  x2 : Option Int
  y2 : Option Int
  deriving DecidableEq, Repr

/-- A raw detection as delivered by the detector: a label and a raw box. -/
structure Detection where
  label : String
  box : RawBox
  deriving DecidableEq, Repr

/-- The x1, y1, x2, y2 = map(int, box.xyxy[0]) conversion of run_cashier:
it succeeds only when all four coordinates are present and convertible;
int() of a missing or NaN coordinate raises, modelled by none. -/
def convertBox (b : RawBox) : Option Box :=
  match b.x1, b.y1, b.x2, b.y2 with
  | some x1, some y1, some x2, some y2 => some ⟨x1, y1, x2, y2⟩
  | _, _, _, _ => none

/-- The per-detection body of run_cashier on a raw detection, including the
price-list filter (which the script applies before the coordinate
conversion) and the fallible conversion itself: a none result models the
uncaught exception that aborts the loop. -/
def processDetection (s : State) (d : Detection) : Option State :=
  if pricedB d.label then
    match convertBox d.box with
    | none => none
    | some new_box =>
      if already_seen s.seen_objects d.label new_box then some s
      else some ⟨bump s.counts d.label, s.seen_objects ++ [(d.label, new_box)]⟩
  else some s

/-- The final bill loop of run_cashier (lines 82-91): for each (item, count)
of counts in order, look up the price (a missing key would raise KeyError,
modelled by none), emit line_total = price * count, and return the line
totals with their subtotal. -/
def receipt : List (String × Nat) → List (String × Int) → Option (List Int × Int)
  | [], _ => some ([], 0)
  | (item, count) :: rest, prices =>
    match List.lookup item prices with
    | none => none
    | some price =>
      match receipt rest prices with
      | none => none
      | some (lines, sub) =>
        some ((price * (count : Int)) :: lines, price * (count : Int) + sub)

/-! Integer-arithmetic evaluation forms.  The rational arithmetic of
is_same_object does not reduce in the kernel, so for concrete computations
we use equivalent integer tests, proved equal to the faithful definitions:
comparing centers (x1 + x2) / 2 within a distance of 50 is the same as
comparing the coordinate sums within a distance of 100. -/

/-- Integer form of the proximity test: threshold2 is twice the pixel
threshold, compared against the difference of coordinate sums. -/
def is_same_objectI (box1 box2 : Box) (threshold2 : Int) : Bool :=
  decide (|box1.x1 + box1.x2 - (box2.x1 + box2.x2)| < threshold2) &&
  decide (|box1.y1 + box1.y2 - (box2.y1 + box2.y2)| < threshold2)

/-- Integer form of the seen-objects scan. -/
def already_seenI (seen_objects : List (String × Box)) (cls_name : String)
    (new_box : Box) : Bool :=
  seen_objects.any (fun p => p.1 == cls_name && is_same_objectI p.2 new_box 100)

/-- Integer form of the per-detection step. -/
def updateI (s : State) (cls_name : String) (new_box : Box) : State :=
  if pricedB cls_name then
    if already_seenI s.seen_objects cls_name new_box then s
    else ⟨bump s.counts cls_name, s.seen_objects ++ [(cls_name, new_box)]⟩
  else s

/-- Integer form of a frame step. -/
def updateFrameI (s : State) (frame : List (String × Box)) : State :=
  frame.foldl (fun t d => updateI t d.1 d.2) s

/-- Comparing halves within t is comparing the values within 2 * t. -/
theorem abs_half_lt (x y t : ℚ) : |x / 2 - y / 2| < t ↔ |x - y| < 2 * t := by
  rw [div_sub_div_same, abs_div, abs_two,
    div_lt_iff₀ (by norm_num : (0 : ℚ) < 2), mul_comm]

/-- The rational proximity test at threshold 50 agrees with the integer
test at doubled threshold 100. -/
theorem is_same_object_eq (b1 b2 : Box) :
    is_same_object b1 b2 50 = is_same_objectI b1 b2 100 := by
  simp only [is_same_object, is_same_objectI]
  congr 1 <;> rw [decide_eq_decide]
  · rw [abs_half_lt]
    constructor <;> intro h <;> [exact_mod_cast h; exact_mod_cast h]
  · rw [abs_half_lt]
    constructor <;> intro h <;> [exact_mod_cast h; exact_mod_cast h]

/-- The seen-objects scan agrees with its integer form. -/
theorem already_seen_eq (seen : List (String × Box)) (l : String) (b : Box) :
    already_seen seen l b = already_seenI seen l b := by
  simp [already_seen, already_seenI, is_same_object_eq]

/-- The per-detection step agrees with its integer form. -/
theorem update_eq (s : State) (l : String) (b : Box) :
    update s l b = updateI s l b := by
  simp [update, updateI, already_seen_eq]

/-- A frame step agrees with its integer form. -/
theorem updateFrame_eq (s : State) (frame : List (String × Box)) :
    updateFrame s frame = updateFrameI s frame := by
  simp [updateFrame, updateFrameI, update_eq]

/-! Basic lemmas about the counting machinery. -/

/-- Incrementing a key reads back one higher. -/
theorem tallyOf_bump_same (counts : List (String × Nat)) (l : String) :
    tallyOf (bump counts l) l = tallyOf counts l + 1 := by
  induction counts with
  | nil => simp [bump, tallyOf, List.lookup]
  | cons p rest ih =>
    obtain ⟨k, v⟩ := p
    by_cases h : k = l
    · subst h
      simp [bump, tallyOf, List.lookup]
    · have hlk : (l == k) = false := beq_eq_false_iff_ne.mpr (Ne.symm h)
      simp [bump, h, tallyOf, List.lookup, hlk] at ih ⊢
      exact ih

/-- Incrementing a key leaves every other key unchanged. -/
theorem tallyOf_bump_ne (counts : List (String × Nat)) (l l2 : String)
    (h : l ≠ l2) : tallyOf (bump counts l) l2 = tallyOf counts l2 := by
  induction counts with
  | nil =>
    have hne : (l2 == l) = false := beq_eq_false_iff_ne.mpr (Ne.symm h)
    simp [bump, tallyOf, List.lookup, hne]
  | cons p rest ih =>
    obtain ⟨k, v⟩ := p
    by_cases hk : k = l
    · subst hk
      have hne : (l2 == k) = false := beq_eq_false_iff_ne.mpr (Ne.symm h)
      simp [bump, tallyOf, List.lookup, hne]
    · by_cases hk2 : l2 = k
      · subst hk2
        simp [bump, hk, tallyOf, List.lookup]
      · have hne : (l2 == k) = false := beq_eq_false_iff_ne.mpr hk2
        simp [bump, hk, tallyOf, List.lookup, hne] at ih ⊢
        exact ih

/-- The seen-objects scan succeeds exactly when some stored object has the
same label and passes the proximity test at the default threshold. -/
theorem already_seen_iff (seen : List (String × Box)) (l : String) (b : Box) :
    already_seen seen l b = true ↔
      ∃ p ∈ seen, p.1 = l ∧ is_same_object p.2 b 50 = true := by
  simp [already_seen, List.any_eq_true, Bool.and_eq_true, beq_iff_eq]

/-- A matching stored object makes update a no-op. -/
theorem update_of_seen (s : State) (l : String) (b : Box)
    (hp : pricedB l = true) (h : already_seen s.seen_objects l b = true) :
    update s l b = s := by
  simp [update, hp, h]

/-- With no matching stored object, update bumps the count and appends. -/
theorem update_of_fresh (s : State) (l : String) (b : Box)
    (hp : pricedB l = true) (h : already_seen s.seen_objects l b = false) :
    update s l b = ⟨bump s.counts l, s.seen_objects ++ [(l, b)]⟩ := by
  simp [update, hp, h]

/-- An unpriced label makes update a no-op. -/
theorem update_unpriced (s : State) (l : String) (b : Box)
    (hp : pricedB l = false) : update s l b = s := by
  simp [update, hp]

/-- Every box passes the proximity test against itself. -/
theorem is_same_object_self (b : Box) : is_same_object b b 50 = true := by
  simp [is_same_object, sub_self, abs_zero]

/-- A detection whose exact label and box are already stored is a no-op. -/
theorem update_of_mem (t : State) (l : String) (b : Box)
    (hm : (l, b) ∈ t.seen_objects) : update t l b = t := by
  by_cases hp : pricedB l = true
  · exact update_of_seen t l b hp
      ((already_seen_iff _ _ _).mpr ⟨(l, b), hm, rfl, is_same_object_self b⟩)
  · exact update_unpriced t l b (by simpa using hp)

/-- The documented session invariant: the count stored for each label is
the number of seen objects carrying that label. -/
def TallyInv (s : State) : Prop :=
  ∀ l, tally s l = (s.seen_objects.filter (fun p => p.1 == l)).length

/-- One detection step preserves the session invariant. -/
theorem update_inv (s : State) (l : String) (b : Box) (h : TallyInv s) :
    TallyInv (update s l b) := by
  intro l2
  by_cases hp : pricedB l = true
  · cases hs : already_seen s.seen_objects l b with
    | true => rw [update_of_seen s l b hp hs]; exact h l2
    | false =>
      rw [update_of_fresh s l b hp hs]
      show tallyOf (bump s.counts l) l2 =
        ((s.seen_objects ++ [(l, b)]).filter (fun p => p.1 == l2)).length
      rw [List.filter_append, List.length_append]
      by_cases hl : l = l2
      · subst hl
        have hh := h l
        simp only [tally] at hh
        rw [tallyOf_bump_same, hh]
        simp [List.filter]
      · have hh := h l2
        simp only [tally] at hh
        rw [tallyOf_bump_ne _ _ _ hl, hh]
        have hb : (l == l2) = false := beq_eq_false_iff_ne.mpr hl
        have hf : List.filter (fun p => p.1 == l2) [(l, b)] = [] := by
          simp [List.filter, hb]
        rw [hf]
        simp
  · rw [update_unpriced s l b (by simpa using hp)]
    exact h l2

/-- A frame step preserves the session invariant. -/
theorem updateFrame_inv (s : State) (frame : List (String × Box))
    (h : TallyInv s) : TallyInv (updateFrame s frame) := by
  induction frame generalizing s with
  | nil => exact h
  | cons d rest ih => exact ih (update s d.1 d.2) (update_inv s d.1 d.2 h)

/-- Any run of frames preserves the session invariant. -/
theorem applyFrames_inv (s : State) (frames : List (List (String × Box)))
    (h : TallyInv s) : TallyInv (applyFrames s frames) := by
  induction frames generalizing s with
  | nil => exact h
  | cons f rest ih => exact ih (updateFrame s f) (updateFrame_inv s f h)

/-- One detection step only appends to seen_objects and never lowers any
count. -/
theorem update_mono (s : State) (l : String) (b : Box) :
    (∃ t, (update s l b).seen_objects = s.seen_objects ++ t) ∧
    (∀ l2, tally s l2 ≤ tally (update s l b) l2) := by
  by_cases hp : pricedB l = true
  · cases hs : already_seen s.seen_objects l b with
    | true => rw [update_of_seen s l b hp hs]; exact ⟨⟨[], by simp⟩, fun _ => le_refl _⟩
    | false =>
      rw [update_of_fresh s l b hp hs]
      refine ⟨⟨[(l, b)], rfl⟩, fun l2 => ?_⟩
      show tally s l2 ≤ tallyOf (bump s.counts l) l2
      by_cases hl : l = l2
      · subst hl; rw [tallyOf_bump_same]; exact Nat.le_succ _
      · rw [tallyOf_bump_ne _ _ _ hl]; exact le_refl _
  · rw [update_unpriced s l b (by simpa using hp)]
    exact ⟨⟨[], by simp⟩, fun _ => le_refl _⟩

/-- A frame step only appends to seen_objects and never lowers any count. -/
theorem updateFrame_mono (s : State) (frame : List (String × Box)) :
    (∃ t, (updateFrame s frame).seen_objects = s.seen_objects ++ t) ∧
    (∀ l2, tally s l2 ≤ tally (updateFrame s frame) l2) := by
  induction frame generalizing s with
  | nil => exact ⟨⟨[], by simp [updateFrame]⟩, fun _ => le_refl _⟩
  | cons d rest ih =>
    obtain ⟨⟨t1, h1⟩, h2⟩ := update_mono s d.1 d.2
    obtain ⟨⟨t2, h3⟩, h4⟩ := ih (update s d.1 d.2)
    refine ⟨⟨t1 ++ t2, ?_⟩, fun l2 => le_trans (h2 l2) (h4 l2)⟩
    show (updateFrame (update s d.1 d.2) rest).seen_objects = _
    rw [h3, h1, List.append_assoc]

/-- Repeating a detection whose exact pair is already stored never changes
the state. -/
theorem updateFrame_replicate_fix (t : State) (l : String) (b : Box) (m : Nat)
    (hm : (l, b) ∈ t.seen_objects) :
    updateFrame t (List.replicate m (l, b)) = t := by
  induction m with
  | zero => rfl
  | succ k ih =>
    show updateFrame (update t l b) (List.replicate k (l, b)) = t
    rw [update_of_mem t l b hm]
    exact ih

/-! The claims. -/

/-- C1: for a priced detection, if some stored SeenObject has the same label
and passes the proximity test against the new box then the tally is
unchanged at every label; otherwise the tally of that label rises by exactly
one and the new (label, box) pair is appended to seen_objects. -/
theorem counter_update_spec (s : State) (l : String) (b : Box)
    (hp : pricedB l = true) :
    ((∃ p ∈ s.seen_objects, p.1 = l ∧ is_same_object p.2 b 50 = true) →
      ∀ l2, tally (update s l b) l2 = tally s l2) ∧
    ((¬ ∃ p ∈ s.seen_objects, p.1 = l ∧ is_same_object p.2 b 50 = true) →
      tally (update s l b) l = tally s l + 1 ∧
      (update s l b).seen_objects = s.seen_objects ++ [(l, b)]) := by
  constructor
  · intro hmatch l2
    rw [update_of_seen s l b hp ((already_seen_iff _ _ _).mpr hmatch)]
  · intro hnone
    have hs : already_seen s.seen_objects l b = false := by
      cases hb : already_seen s.seen_objects l b with
      | false => rfl
      | true => exact absurd ((already_seen_iff _ _ _).mp hb) hnone
    rw [update_of_fresh s l b hp hs]
    exact ⟨tallyOf_bump_same _ _, rfl⟩

/-- Witness for C1 at a concrete state: a nearby same-label detection keeps
the tally at 1, as follows by applying the theorem's first branch. -/
theorem counter_update_spec_witness :
    tally (update ⟨[("apple", 1)], [("apple", ⟨0, 0, 0, 0⟩)]⟩
      "apple" ⟨10, 0, 10, 0⟩) "apple" = 1 := by
  have h := counter_update_spec ⟨[("apple", 1)], [("apple", ⟨0, 0, 0, 0⟩)]⟩
    "apple" ⟨10, 0, 10, 0⟩ (by decide)
  rw [h.1 ⟨("apple", ⟨0, 0, 0, 0⟩), by simp, rfl,
    by rw [is_same_object_eq]; decide⟩ "apple"]
  rfl

/-- C2: starting from the empty session state, after any sequence of frames
the tally of every label equals the number of stored SeenObjects carrying
that label. -/
theorem tally_matches_seen_count (frames : List (List (String × Box)))
    (l : String) :
    tally (runFrames frames) l =
      ((runFrames frames).seen_objects.filter (fun p => p.1 == l)).length :=
  applyFrames_inv initState frames (fun _ => rfl) l

/-- C3: the proximity test holds exactly when both center coordinates
differ by strictly less than the threshold; at the default threshold 50,
centers differing by exactly 50 in both axes are judged distinct while
centers differing by 49 in both axes are merged. -/
theorem proximity_threshold_spec :
    (∀ (b1 b2 : Box) (t : ℚ),
      is_same_object b1 b2 t = true ↔
        |((b1.x1 : ℚ) + b1.x2) / 2 - ((b2.x1 : ℚ) + b2.x2) / 2| < t ∧
        |((b1.y1 : ℚ) + b1.y2) / 2 - ((b2.y1 : ℚ) + b2.y2) / 2| < t) ∧
    (∀ b1 b2 : Box,
      |((b1.x1 : ℚ) + b1.x2) / 2 - ((b2.x1 : ℚ) + b2.x2) / 2| = 50 →
      |((b1.y1 : ℚ) + b1.y2) / 2 - ((b2.y1 : ℚ) + b2.y2) / 2| = 50 →
      is_same_object b1 b2 50 = false) ∧
    (∀ b1 b2 : Box,
      |((b1.x1 : ℚ) + b1.x2) / 2 - ((b2.x1 : ℚ) + b2.x2) / 2| = 49 →
      |((b1.y1 : ℚ) + b1.y2) / 2 - ((b2.y1 : ℚ) + b2.y2) / 2| = 49 →
      is_same_object b1 b2 50 = true) := by
  have hiff : ∀ (b1 b2 : Box) (t : ℚ),
      is_same_object b1 b2 t = true ↔
        |((b1.x1 : ℚ) + b1.x2) / 2 - ((b2.x1 : ℚ) + b2.x2) / 2| < t ∧
        |((b1.y1 : ℚ) + b1.y2) / 2 - ((b2.y1 : ℚ) + b2.y2) / 2| < t := by
    intro b1 b2 t
    simp [is_same_object, Bool.and_eq_true, decide_eq_true_eq]
  refine ⟨hiff, fun b1 b2 hx hy => ?_, fun b1 b2 hx hy => ?_⟩
  · cases hb : is_same_object b1 b2 50 with
    | false => rfl
    | true =>
      rcases (hiff b1 b2 50).mp hb with ⟨h1, _⟩
      rw [hx] at h1
      exact absurd h1 (lt_irrefl 50)
  · exact (hiff b1 b2 50).mpr ⟨by rw [hx]; norm_num, by rw [hy]; norm_num⟩

/-- Witness for C3: boxes with centers (0,0) and (50,50) are judged
distinct, boxes with centers (0,0) and (49,49) are merged. -/
theorem proximity_threshold_spec_witness :
    is_same_object ⟨0, 0, 0, 0⟩ ⟨50, 50, 50, 50⟩ 50 = false ∧
    is_same_object ⟨0, 0, 0, 0⟩ ⟨49, 49, 49, 49⟩ 50 = true :=
  ⟨proximity_threshold_spec.2.1 ⟨0, 0, 0, 0⟩ ⟨50, 50, 50, 50⟩
      (by norm_num) (by norm_num),
    proximity_threshold_spec.2.2 ⟨0, 0, 0, 0⟩ ⟨49, 49, 49, 49⟩
      (by norm_num) (by norm_num)⟩

/-- C4: over any run of frames the seen_objects list only grows by
appending, so every existing entry survives unchanged at its position, and
no tally ever decreases. -/
theorem session_state_monotone (s : State)
    (frames : List (List (String × Box))) :
    (∃ t, (applyFrames s frames).seen_objects = s.seen_objects ++ t) ∧
    (∀ l2, tally s l2 ≤ tally (applyFrames s frames) l2) := by
  induction frames generalizing s with
  | nil => exact ⟨⟨[], by simp [applyFrames]⟩, fun _ => le_refl _⟩
  | cons f rest ih =>
    obtain ⟨⟨t1, h1⟩, h2⟩ := updateFrame_mono s f
    obtain ⟨⟨t2, h3⟩, h4⟩ := ih (updateFrame s f)
    refine ⟨⟨t1 ++ t2, ?_⟩, fun l2 => le_trans (h2 l2) (h4 l2)⟩
    show (applyFrames (updateFrame s f) rest).seen_objects = _
    rw [h3, h1, List.append_assoc]

/-- C5: feeding the identical priced detection N ≥ 1 times in a row from a
state with no same-label stored object near the box raises the tally of the
label by exactly one, not N. -/
theorem repeated_detection_counts_once (s : State) (l : String) (b : Box)
    (N : Nat) (hp : pricedB l = true) (hN : 1 ≤ N)
    (hfresh : already_seen s.seen_objects l b = false) :
    tally (updateFrame s (List.replicate N (l, b))) l = tally s l + 1 := by
  obtain ⟨m, rfl⟩ : ∃ m, N = m + 1 :=
    ⟨N - 1, (Nat.succ_pred_eq_of_pos hN).symm⟩
  show tally (updateFrame (update s l b) (List.replicate m (l, b))) l =
    tally s l + 1
  rw [update_of_fresh s l b hp hfresh,
    updateFrame_replicate_fix _ l b m (by simp)]
  exact tallyOf_bump_same _ _

/-- Witness for C5: three identical apple detections from the empty state
produce a tally of exactly one. -/
theorem repeated_detection_counts_once_witness :
    tally (updateFrame initState
      (List.replicate 3 ("apple", (⟨0, 0, 20, 20⟩ : Box)))) "apple" =
      tally initState "apple" + 1 :=
  repeated_detection_counts_once initState "apple" ⟨0, 0, 20, 20⟩ 3
    (by decide) (by decide) rfl

/-- C6: a detection whose label is not in the price list leaves the state
exactly unchanged, and an empty frame is a no-op. -/
theorem unpriced_label_noop (s : State) (l : String) (b : Box) :
    (pricedB l = false → update s l b = s) ∧ updateFrame s [] = s :=
  ⟨fun hp => update_unpriced s l b hp, rfl⟩

/-- Witness for C6: a keyboard detection does not change the empty state. -/
theorem unpriced_label_noop_witness :
    update initState "keyboard" ⟨0, 0, 10, 10⟩ = initState :=
  (unpriced_label_noop initState "keyboard" ⟨0, 0, 10, 10⟩).1 (by decide)

/-- C7 counterexample: a priced detection with a missing/NaN coordinate is
not silently skipped — the int() conversion raises, modelled by a none
result instead of an unchanged state. -/
theorem malformed_skip_counterexample :
    ¬ (processDetection initState ⟨"apple", ⟨none, some 0, some 0, some 0⟩⟩ =
      some initState) := by
  decide

/-- C7 amended: a detection with a label outside the price list is silently
skipped whatever its box looks like, but a priced detection with a
missing/NaN coordinate aborts with an error instead of being skipped. -/
theorem malformed_handling_amended (s : State) (d : Detection) :
    (pricedB d.label = false → processDetection s d = some s) ∧
    (pricedB d.label = true → convertBox d.box = none →
      processDetection s d = none) := by
  constructor
  · intro hp
    simp [processDetection, hp]
  · intro hp hc
    simp [processDetection, hp, hc]

/-- Witness for the amended C7: an unpriced malformed detection is skipped,
a priced malformed detection errors. -/
theorem malformed_handling_amended_witness :
    processDetection initState ⟨"keyboard", ⟨none, none, none, none⟩⟩ =
      some initState ∧
    processDetection initState ⟨"apple", ⟨some 0, none, some 0, some 0⟩⟩ =
      none :=
  ⟨(malformed_handling_amended initState
      ⟨"keyboard", ⟨none, none, none, none⟩⟩).1 (by decide),
    (malformed_handling_amended initState
      ⟨"apple", ⟨some 0, none, some 0, some 0⟩⟩).2 (by decide) (by decide)⟩

/-- C8: whenever the receipt computation succeeds, each line total is the
looked-up unit price times the count and the subtotal is the sum of the
line totals; on tally apple 3, cake 1 with prices apple 30, cake 100 it
yields line totals 90 and 100 and subtotal 190. -/
theorem receipt_arithmetic_spec :
    (∀ (counts : List (String × Nat)) (prices : List (String × Int))
      (lines : List Int) (sub : Int),
      receipt counts prices = some (lines, sub) →
      lines = counts.map
        (fun p => ((List.lookup p.1 prices).getD 0) * (p.2 : Int)) ∧
      sub = lines.sum) ∧
    receipt [("apple", 3), ("cake", 1)] [("apple", 30), ("cake", 100)] =
      some ([90, 100], 190) := by
  constructor
  · intro counts prices lines sub h
    induction counts generalizing lines sub with
    | nil =>
      simp [receipt] at h
      obtain ⟨h1, h2⟩ := h
      subst h1
      subst h2
      simp
    | cons p rest ih =>
      obtain ⟨item, count⟩ := p
      cases hl : List.lookup item prices with
      | none => simp [receipt, hl] at h
      | some price =>
        cases hr : receipt rest prices with
        | none => simp [receipt, hl, hr] at h
        | some pr =>
          obtain ⟨lines0, sub0⟩ := pr
          simp [receipt, hl, hr] at h
          obtain ⟨h1, h2⟩ := h
          obtain ⟨h3, h4⟩ := ih lines0 sub0 hr
          subst h1
          subst h2
          constructor
          · simp [List.map, hl, h3]
          · simp [List.sum_cons, h4]
  · decide

/-- Witness for C8: applying the general part of the theorem at the
concrete tally and price list of the claim. -/
theorem receipt_arithmetic_spec_witness :
    ([90, 100] : List Int) =
      ([("apple", 3), ("cake", 1)] : List (String × Nat)).map
        (fun p =>
          ((List.lookup p.1 [("apple", 30), ("cake", 100)]).getD 0) *
            (p.2 : Int)) ∧
    (190 : Int) = ([90, 100] : List Int).sum :=
  receipt_arithmetic_spec.1 [("apple", 3), ("cake", 1)]
    [("apple", 30), ("cake", 100)] [90, 100] 190 (by decide)

/-- C9: de-duplication applies within one frame: when a priced detection is
confirmed by the first slot of a batch, a second same-label detection of
the batch whose box passes the proximity test against the first is merged,
so the frame increments the tally by exactly one. -/
theorem within_frame_dedup (s : State) (l : String) (b1 b2 : Box)
    (hp : pricedB l = true)
    (hfresh : already_seen s.seen_objects l b1 = false)
    (hnear : is_same_object b1 b2 50 = true) :
    updateFrame s [(l, b1), (l, b2)] = update s l b1 ∧
    tally (updateFrame s [(l, b1), (l, b2)]) l = tally s l + 1 := by
  have h1 : update s l b1 = ⟨bump s.counts l, s.seen_objects ++ [(l, b1)]⟩ :=
    update_of_fresh s l b1 hp hfresh
  have hmem : (l, b1) ∈ (update s l b1).seen_objects := by
    rw [h1]; simp
  have h2 : update (update s l b1) l b2 = update s l b1 :=
    update_of_seen _ _ _ hp
      ((already_seen_iff _ _ _).mpr ⟨(l, b1), hmem, rfl, hnear⟩)
  have hframe : updateFrame s [(l, b1), (l, b2)] = update s l b1 := h2
  refine ⟨hframe, ?_⟩
  rw [hframe, h1]
  exact tallyOf_bump_same _ _

/-- Witness for C9: two nearby apple detections in one frame from the empty
state count once. -/
theorem within_frame_dedup_witness :
    updateFrame initState
      [("apple", ⟨0, 0, 0, 0⟩), ("apple", ⟨40, 0, 40, 0⟩)] =
      update initState "apple" ⟨0, 0, 0, 0⟩ ∧
    tally (updateFrame initState
      [("apple", ⟨0, 0, 0, 0⟩), ("apple", ⟨40, 0, 40, 0⟩)]) "apple" =
      tally initState "apple" + 1 :=
  within_frame_dedup initState "apple" ⟨0, 0, 0, 0⟩ ⟨40, 0, 40, 0⟩
    (by decide) rfl (by rw [is_same_object_eq]; decide)

/-- C10: the frame update is order sensitive: three same-label detections
with centers 0, 40 and 80 pixels along the x axis tally to 2 in one order
and to 1 after swapping the first two. -/
theorem batch_order_dependence :
    tally (updateFrame initState
      [("apple", ⟨0, 0, 0, 0⟩), ("apple", ⟨40, 0, 40, 0⟩),
       ("apple", ⟨80, 0, 80, 0⟩)]) "apple" = 2 ∧
    tally (updateFrame initState
      [("apple", ⟨40, 0, 40, 0⟩), ("apple", ⟨0, 0, 0, 0⟩),
       ("apple", ⟨80, 0, 80, 0⟩)]) "apple" = 1 := by
  rw [updateFrame_eq, updateFrame_eq]
  exact ⟨by decide, by decide⟩
